import Mathlib

/-!
Verification of the firemd fetch-orchestration engine (firecrawl.py, manifest.py,
cli.py resume filter) against its specification.

The Python source is shallowly embedded: pure functions become Lean functions,
the HTTP backend is modelled as an explicit oracle giving the backend response
for each request, and the side effects of the executor (retry callbacks, backoff
sleeps) are recorded in an explicit event trace.  HTTP status codes are `Option Int`
(Python `int | None`), delays are rationals.
-/

namespace Firemd

/-- Embeds `is_permanent_error` (firecrawl.py lines 22-39): a status code is a
permanent error iff it is a 4xx other than 408 and 429; `None` (network error)
is not permanent. -/
def is_permanent_error (status_code : Option Int) : Bool :=
  match status_code with
  | none => false
  | some c => if 400 ≤ c ∧ c < 500 ∧ c ∉ ([408, 429] : List Int) then true else false

/-- Embeds `is_success` (firecrawl.py lines 42-53): 2xx status codes. -/
def is_success (status_code : Option Int) : Bool :=
  match status_code with
  | none => false
  | some c => if 200 ≤ c ∧ c < 300 then true else false

/-- Embeds the `ScrapeResult` dataclass (firecrawl.py lines 101-118).
The `metadata` dict and `scraped_at` timestamp are not modelled (no claim
mentions them). -/
structure ScrapeResult where
  url : String
  markdown : String
  title : Option String := none
  description : Option String := none
  source_url : Option String := none
  status_code : Option Int := none
  error : Option String := none
deriving DecidableEq, Repr

/-- Embeds `ScrapeResult.success` (firecrawl.py lines 115-118): 2xx status and
non-empty markdown. -/
def ScrapeResult.success (r : ScrapeResult) : Bool :=
  is_success r.status_code && !(r.markdown == "")

/-- Metadata object of a backend single-page response (`data.metadata`).
Absent JSON keys are `none`. -/
structure Meta where
  title : Option String := none
  description : Option String := none
  sourceURL : Option String := none
  statusCode : Option Int := none
deriving DecidableEq, Repr

/-- Body of a successful (2xx) `/v1/scrape` response: the parsed JSON object.
`success_field` is `data.get("success", False)`, `error_field` the optional
`error` key, `data_markdown`/`data_metadata` model `data.get("data", {})`. -/
structure ApiScrapeBody where
  success_field : Bool := false
  error_field : Option String := none
  data_markdown : Option String := none
  data_metadata : Meta := {}
deriving DecidableEq, Repr

/-- Outcome of `_make_request` as seen by `scrape_url`: either a 2xx response
with a parsed JSON body, or a raised `httpx.HTTPStatusError` (carrying the
response status and, when the error body parsed as JSON with an `error` key,
that error string), or a raised `httpx.RequestError` (network failure). -/
inductive BackendResponse where
  | ok (body : ApiScrapeBody)
  | httpStatusError (code : Int) (errorBody : Option String)
  | requestError (msg : String)
deriving DecidableEq, Repr

/-- Embeds `FirecrawlClient.scrape_url` (firecrawl.py lines 211-264) as a total
function of the backend response.  All three Python exit paths are mirrored:
the `success=False` JSON branch, the `HTTPStatusError` handler and the
`RequestError` handler both return a `ScrapeResult` with empty markdown, a set
error message and no status code. -/
def scrape_url (url : String) (resp : BackendResponse) : ScrapeResult :=
  match resp with
  | .ok body =>
      if !body.success_field then
        { url := url, markdown := "", error := some (body.error_field.getD "Unknown error") }
      else
        { url := url
          markdown := body.data_markdown.getD ""
          title := body.data_metadata.title
          description := body.data_metadata.description
          source_url := some (body.data_metadata.sourceURL.getD url)
          status_code := body.data_metadata.statusCode }
  | .httpStatusError code errorBody =>
      { url := url, markdown := ""
        error := some (errorBody.getD ("HTTP " ++ toString code)) }
  | .requestError msg =>
      { url := url, markdown := "", error := some ("Request failed: " ++ msg) }

/-- Embeds the backoff formula shared by `with_retry` (firecrawl.py line 92,
`min(base_delay * (2**attempt), max_delay)`) and `scrape_urls_sequential`
(line 730, `min(1.0 * (2 ** attempt), max_backoff)`). -/
def backoff_delay (base : ℚ) (attempt : ℕ) (cap : ℚ) : ℚ :=
  min (base * 2 ^ attempt) cap

/-- Observable side effects of `scrape_urls_sequential`'s per-URL retry loop:
the `on_retry(url, attempt, status_code)` callback and the `time.sleep(backoff)`
call (firecrawl.py lines 731-733). -/
inductive Event where
  | retryCb (url : String) (attempt : ℕ) (status_code : Option Int)
  | backoffSleep (d : ℚ)
deriving DecidableEq, Repr

/-- Duration of a backoff sleep event, `none` for callback events. -/
def Event.sleepDur : Event → Option ℚ
  | .backoffSleep d => some d
  | _ => none

/-- Embeds the inner `for attempt in range(max_retries + 1)` loop of
`scrape_urls_sequential` (firecrawl.py lines 715-734).  `oracle a` is the
backend response to the `a`-th fetch of this URL; `remaining` is
`max_retries - attempt`, so `remaining > 0` mirrors `attempt < max_retries`.
Returns the emitted tuple `(result, permanent, retry_count)` (in every exit
path of the Python loop the final `retry_count` equals the index of the last
attempt performed) together with the trace of callbacks and sleeps. -/
def attemptLoop (oracle : ℕ → BackendResponse) (url : String) (max_backoff : ℚ) :
    ℕ → ℕ → ((ScrapeResult × Bool × ℕ) × List Event)
  | remaining, attempt =>
    let result := scrape_url url (oracle attempt)
    if result.success then ((result, false, attempt), [])
    else if is_permanent_error result.status_code then ((result, true, attempt), [])
    else
      match remaining with
      | 0 => ((result, false, attempt), [])
      | r + 1 =>
        ((attemptLoop oracle url max_backoff r (attempt + 1)).1,
          .retryCb url (attempt + 1) result.status_code ::
            .backoffSleep (backoff_delay 1 attempt max_backoff) ::
              (attemptLoop oracle url max_backoff r (attempt + 1)).2)

/-- One URL's pass through `scrape_urls_sequential`: the attempt loop started
at `attempt = 0` with `max_retries` retries remaining. -/
def runOne (oracle : ℕ → BackendResponse) (url : String) (max_retries : ℕ)
    (max_backoff : ℚ) : (ScrapeResult × Bool × ℕ) × List Event :=
  attemptLoop oracle url max_backoff max_retries 0

/-- Embeds `FirecrawlClient.scrape_urls_sequential` (firecrawl.py lines
683-742): URLs are processed one at a time, each fully resolved before the
next, one tuple yielded per URL.  `oracle u a` is the backend response to the
`a`-th fetch of URL `u`.  The randomized politeness sleep between URLs
(lines 740-742) touches no state and emits nothing, so it is not recorded. -/
def scrape_urls_sequential (oracle : String → ℕ → BackendResponse)
    (urls : List String) (max_retries : ℕ) (max_backoff : ℚ) :
    List (ScrapeResult × Bool × ℕ) :=
  urls.map (fun u => (runOne (oracle u) u max_retries max_backoff).1)

/-- Embeds the `ManifestEntry` dataclass (manifest.py lines 12-22). -/
structure ManifestEntry where
  url : String
  file : String
  status : String
  ts : String := ""
  title : Option String := none
  http_status : Option Int := none
  error : Option String := none
deriving DecidableEq, Repr

/-- JSON object of one manifest line, as a record of optional keys. -/
structure EntryDict where
  url : Option String := none
  file : Option String := none
  status : Option String := none
  ts : Option String := none
  title : Option String := none
  http_status : Option Int := none
  error : Option String := none
deriving DecidableEq, Repr

/-- Python truthiness of an optional string (`if self.title:`). -/
def truthyStr : Option String → Bool
  | none => false
  | some s => !(s == "")

/-- Python truthiness of an optional int (`if self.http_status:`). -/
def truthyInt : Option Int → Bool
  | none => false
  | some n => !(n == 0)

/-- Embeds `ManifestEntry.to_dict` (manifest.py lines 24-38): url, file,
status, ts always written; title/http_status/error written only when truthy. -/
def ManifestEntry.to_dict (e : ManifestEntry) : EntryDict :=
  { url := some e.url
    file := some e.file
    status := some e.status
    ts := some e.ts
    title := if truthyStr e.title then e.title else none
    http_status := if truthyInt e.http_status then e.http_status else none
    error := if truthyStr e.error then e.error else none }

/-- Embeds `ManifestEntry.from_dict` (manifest.py lines 40-51): `data["url"]`
and `data["status"]` raise `KeyError` when missing (modelled as `none`; the
caller `load_manifest` skips such lines); the rest use `.get` defaults. -/
def ManifestEntry.from_dict (d : EntryDict) : Option ManifestEntry :=
  match d.url, d.status with
  | some u, some s =>
      some { url := u, file := d.file.getD "", status := s, ts := d.ts.getD ""
             title := d.title, http_status := d.http_status, error := d.error }
  | _, _ => none

/-- Embeds `load_manifest` (manifest.py lines 54-81) over the parsed lines of
the file, in file order.  A line is `none` when `json.loads` failed (the line
is skipped); a line whose dict lacks `url` or `status` is likewise skipped
(`KeyError` handler).  `entries[entry.url] = entry` makes the last line for a
URL win; the Python dict is modelled as a lookup function. -/
def load_manifest (lines : List (Option EntryDict)) : String → Option ManifestEntry :=
  lines.foldl
    (fun m line =>
      match line with
      | none => m
      | some d =>
        match ManifestEntry.from_dict d with
        | none => m
        | some e => fun u => if u == e.url then some e else m u)
    (fun _ => none)

/-- Embeds `save_manifest_entry` (manifest.py lines 84-95) at the level of
file contents: appending `json.dumps(entry.to_dict())` adds one parsed line. -/
def save_manifest_entry (lines : List (Option EntryDict)) (e : ManifestEntry) :
    List (Option EntryDict) :=
  lines ++ [some e.to_dict]

/-- Embeds `save_error_entry` (manifest.py lines 98-112): returns without
writing unless the entry's status is `"error"`; otherwise appends one line. -/
def save_error_entry (lines : List (Option EntryDict)) (e : ManifestEntry) :
    List (Option EntryDict) :=
  if e.status ≠ "error" then lines else lines ++ [some e.to_dict]

/-- Embeds the resume filter of `do_scrape` (cli.py lines 464-483): when
`overwrite` is unset, keep a URL unless its manifest entry exists with
status `"ok"` and a 2xx `http_status`. -/
def resume_filter (overwrite : Bool) (manifest : String → Option ManifestEntry)
    (urls : List String) : List String :=
  if overwrite then urls
  else urls.filter (fun u =>
    match manifest u with
    | none => true
    | some e => !(e.status == "ok") || !(is_success e.http_status))

/-- Embeds the `CrawlJob` dataclass (firecrawl.py lines 131-138). -/
structure CrawlJob where
  job_id : String
  total : ℕ := 0
  completed : ℕ := 0
  status : String := "pending"
deriving DecidableEq, Repr

/-- One document dict as delivered by the backend (a crawl page): the raw JSON
item with its optional `markdown`, `url` and `metadata` keys flattened. -/
structure DocItem where
  markdown : Option String := none
  url : Option String := none
  sourceURL : Option String := none
  title : Option String := none
  description : Option String := none
  statusCode : Option Int := none
deriving DecidableEq, Repr

/-- URL extraction used by `_parse_doc` and both polling loops (firecrawl.py
lines 511, 626, 660): `metadata.get("sourceURL", item.get("url", ""))`. -/
def docUrl (item : DocItem) : String :=
  item.sourceURL.getD (item.url.getD "")

/-- Embeds `FirecrawlClient._parse_doc` (firecrawl.py lines 507-520). -/
def parse_doc (item : DocItem) : ScrapeResult :=
  { url := docUrl item
    markdown := item.markdown.getD ""
    title := item.title
    description := item.description
    source_url := item.sourceURL
    status_code := item.statusCode }

/-- One decoded WebSocket message (firecrawl.py lines 555-581).  A `catchup`
carries optional total/completed/status updates and the raw doc list, where a
falsy list element (`if d`) is modelled as `none`.  `other` is any unknown
`type`, which the loop ignores. -/
inductive WsMsg where
  | document (item : DocItem)
  | catchup (total : Option ℕ) (completed : Option ℕ) (status : Option String)
      (docs : List (Option DocItem))
  | done
  | error
  | other
deriving DecidableEq, Repr

/-- Embeds the read loop of `_stream_crawl_ws` (firecrawl.py lines 549-582)
over the sequence of messages the connection delivers.  The second component
is `true` when the loop ended normally via a `done`/`error` message; running
out of messages models `ws.recv()` raising (connection drop or decode error),
the case in which `stream_crawl` falls back to polling. -/
def wsGo (job : CrawlJob) : List WsMsg → (List (CrawlJob × List ScrapeResult) × Bool)
  | [] => ([], false)
  | msg :: rest =>
    match msg with
    | .document item =>
        let job' := { job with completed := job.completed + 1 }
        let out := wsGo job' rest
        ((job', [parse_doc item]) :: out.1, out.2)
    | .catchup t c s docs =>
        let job' := { job with
          total := t.getD job.total
          completed := c.getD job.completed
          status := s.getD job.status }
        let results := docs.filterMap (fun d => d.map parse_doc)
        let out := wsGo job' rest
        ((job', results) :: out.1, out.2)
    | .done => ([({ job with status := "completed" }, [])], true)
    | .error => ([({ job with status := "failed" }, [])], true)
    | .other => wsGo job rest

/-- Embeds `_stream_crawl_ws` (firecrawl.py lines 522-584): the job starts as
`CrawlJob(job_id=job_id, status="scraping")`.  Note the WebSocket phase keeps
no `seen_urls` set. -/
def stream_crawl_ws (job_id : String) (msgs : List WsMsg) :
    List (CrawlJob × List ScrapeResult) × Bool :=
  wsGo { job_id := job_id, status := "scraping" } msgs

/-- One HTTP poll cycle of `_poll_crawl` (firecrawl.py lines 604-681): the
main `GET /v1/crawl/{id}` payload plus the `data` arrays of the pagination
continuation pages followed within the same cycle (`next` links, chain ended
by an absent link or a failed request). -/
structure PollCycle where
  status : Option String := none
  total : Option ℕ := none
  completed : Option ℕ := none
  data : List DocItem := []
  conts : List (List DocItem) := []
deriving DecidableEq, Repr

/-- All items scanned in one poll cycle, in scan order (main page, then each
continuation page). -/
def PollCycle.items (c : PollCycle) : List DocItem :=
  c.data ++ c.conts.flatten

/-- Job snapshot built from a poll payload (firecrawl.py lines 611-621):
`.get` defaults `"unknown"`, `0`, `0`. -/
def PollCycle.job (c : PollCycle) (job_id : String) : CrawlJob :=
  { job_id := job_id, total := c.total.getD 0, completed := c.completed.getD 0
    status := c.status.getD "unknown" }

/-- Embeds the dedup-and-collect scan over a poll cycle's items (firecrawl.py
lines 623-640 and 658-673): an item is emitted iff its URL is non-empty and
not in `seen_urls`, in which case the URL enters `seen_urls`. -/
def dedupScan (seen : List String) : List DocItem → (List ScrapeResult × List String)
  | [] => ([], seen)
  | item :: rest =>
    if docUrl item ≠ "" ∧ docUrl item ∉ seen then
      (parse_doc item :: (dedupScan (docUrl item :: seen) rest).1,
        (dedupScan (docUrl item :: seen) rest).2)
    else dedupScan seen rest

/-- Crawl statuses that stop the polling loop (firecrawl.py line 678). -/
def isTerminalStatus (s : String) : Bool :=
  s == "completed" || s == "failed" || s == "cancelled"

/-- Embeds the `while True` loop of `_poll_crawl` (firecrawl.py lines 604-681)
over the successive poll payloads, threading `seen_urls`.  The loop yields a
snapshot each cycle and stops after a terminal status.  Exhausting `cycles`
models the stream being cut off mid-poll (the real loop would block on the
next request); the emitted prefix is unaffected. -/
def pollGo (job_id : String) (seen : List String) :
    List PollCycle → List (CrawlJob × List ScrapeResult)
  | [] => []
  | c :: rest =>
    if isTerminalStatus (c.status.getD "unknown") then
      [(c.job job_id, (dedupScan seen c.items).1)]
    else
      (c.job job_id, (dedupScan seen c.items).1) ::
        pollGo job_id (dedupScan seen c.items).2 rest

/-- Embeds `_poll_crawl` (firecrawl.py lines 586-681): `seen_urls` starts
empty. -/
def poll_crawl (job_id : String) (cycles : List PollCycle) :
    List (CrawlJob × List ScrapeResult) :=
  pollGo job_id [] cycles

/-- Embeds `stream_crawl` (firecrawl.py lines 487-505): try the WebSocket
stream; if it raises (here: its message sequence ends without `done`/`error`,
covering both a failed connect with no messages and a mid-stream drop), fall
back to `_poll_crawl` — whose dedup set starts empty, independent of anything
the WebSocket phase yielded. -/
def stream_crawl (job_id : String) (msgs : List WsMsg) (cycles : List PollCycle) :
    List (CrawlJob × List ScrapeResult) :=
  let ws := stream_crawl_ws job_id msgs
  if ws.2 then ws.1 else ws.1 ++ poll_crawl job_id cycles

/-- URLs of all pages emitted by a coordinator run, in emission order. -/
def emittedUrls (run : List (CrawlJob × List ScrapeResult)) : List String :=
  (run.map Prod.snd).flatten.map ScrapeResult.url

/-- The URL field of a scrape result is always the requested URL, whatever the
backend response (every return path of `scrape_url` sets `url=url`). -/
theorem scrape_url_url (url : String) (resp : BackendResponse) :
    (scrape_url url resp).url = url := by
  cases resp with
  | ok body =>
      rw [scrape_url]
      split <;> rfl
  | httpStatusError code errorBody => rfl
  | requestError msg => rfl

/-- C2: for every httpStatus (integer or absent), `is_permanent_error` returns
true iff the status is present, in [400,500), and not 408 or 429; hence `None`
(network failure) and every status ≥ 500 or outside 100-599 are retryable. -/
theorem claim_C2_classifier (c : Option Int) :
    is_permanent_error c = true ↔
      ∃ n : Int, c = some n ∧ 400 ≤ n ∧ n < 500 ∧ n ≠ 408 ∧ n ≠ 429 := by
  cases c with
  | none => simp [is_permanent_error]
  | some n =>
      simp only [is_permanent_error, List.mem_cons, List.not_mem_nil, or_false,
        Option.some.injEq]
      constructor
      · intro h
        split at h
        · rename_i hcond
          push_neg at hcond
          exact ⟨n, rfl, hcond.1, hcond.2.1, hcond.2.2.1, hcond.2.2.2⟩
        · exact absurd h (by simp)
      · rintro ⟨m, rfl, h1, h2, h3, h4⟩
        rw [if_pos]
        push_neg
        exact ⟨h1, h2, h3, h4⟩

/-- C9: `scrape_url` is total over backend failures — for every HTTP error
status raised by the transport and every network-level request failure it
returns a result with empty markdown, an error message set, and no httpStatus;
such a result is classified retryable, never permanent. -/
theorem claim_C9_scrape_url_total_on_errors (url : String) (code : Int)
    (errorBody : Option String) (msg : String) :
    (scrape_url url (.httpStatusError code errorBody)).markdown = "" ∧
    (scrape_url url (.httpStatusError code errorBody)).error.isSome = true ∧
    (scrape_url url (.httpStatusError code errorBody)).status_code = none ∧
    is_permanent_error (scrape_url url (.httpStatusError code errorBody)).status_code = false ∧
    (scrape_url url (.requestError msg)).markdown = "" ∧
    (scrape_url url (.requestError msg)).error.isSome = true ∧
    (scrape_url url (.requestError msg)).status_code = none ∧
    is_permanent_error (scrape_url url (.requestError msg)).status_code = false :=
  ⟨rfl, rfl, rfl, rfl, rfl, rfl, rfl, rfl⟩

/-- The result tuple of the attempt loop always carries the requested URL. -/
theorem attemptLoop_url (oracle : ℕ → BackendResponse) (url : String) (cap : ℚ) :
    ∀ remaining attempt, ((attemptLoop oracle url cap remaining attempt).1.1).url = url := by
  intro remaining
  induction remaining with
  | zero =>
      intro attempt
      rw [attemptLoop]
      split
      · exact scrape_url_url url (oracle attempt)
      · split
        · exact scrape_url_url url (oracle attempt)
        · exact scrape_url_url url (oracle attempt)
  | succ r ih =>
      intro attempt
      rw [attemptLoop]
      split
      · exact scrape_url_url url (oracle attempt)
      · split
        · exact scrape_url_url url (oracle attempt)
        · exact ih (attempt + 1)

/-- C3: the sequential executor yields exactly one tuple per input URL, in
input order, the tuple at position i carrying the URL at input position i
(stated as: the emitted URL sequence equals the input list). -/
theorem claim_C3_sequential_order (oracle : String → ℕ → BackendResponse)
    (urls : List String) (max_retries : ℕ) (max_backoff : ℚ) :
    (scrape_urls_sequential oracle urls max_retries max_backoff).map
      (fun t => t.1.url) = urls := by
  rw [scrape_urls_sequential, List.map_map]
  conv_rhs => rw [← List.map_id urls]
  apply List.map_congr_left
  intro u _
  exact attemptLoop_url (oracle u) u max_backoff max_retries 0

/-- A result whose status code is not 2xx is not a success, whatever its
markdown. -/
theorem success_false_of_status (r : ScrapeResult)
    (h : is_success r.status_code = false) : r.success = false := by
  simp [ScrapeResult.success, h]

/-- C4: a URL whose first fetch returns HTTP 404 is emitted immediately after
that attempt with isPermanent = true and retriesUsed = 0, with an empty event
trace (no backoff sleep, no retry callback), regardless of the retry budget. -/
theorem claim_C4_first_404_immediate (oracle : ℕ → BackendResponse) (url : String)
    (max_retries : ℕ) (max_backoff : ℚ)
    (h : (scrape_url url (oracle 0)).status_code = some 404) :
    runOne oracle url max_retries max_backoff =
      ((scrape_url url (oracle 0), true, 0), []) := by
  have h1 : (scrape_url url (oracle 0)).success = false :=
    success_false_of_status _ (by rw [h]; rfl)
  have h2 : is_permanent_error (scrape_url url (oracle 0)).status_code = true := by
    rw [h]; rfl
  rw [runOne, attemptLoop.eq_def]
  simp [h1, h2]

/-- Backend oracle for the C4 witness: every fetch answers with an API-level
success envelope whose metadata carries statusCode 404. -/
def c4oracle : ℕ → BackendResponse := fun _ =>
  .ok { success_field := true, data_markdown := some "Not Found"
        data_metadata := { statusCode := some 404 } }

/-- Witness for C4 at a concrete oracle, URL and budget. -/
theorem claim_C4_witness :
    (scrape_url "https://e.com/a" (c4oracle 0)).status_code = some 404 ∧
    runOne c4oracle "https://e.com/a" 5 32 =
      ((scrape_url "https://e.com/a" (c4oracle 0), true, 0), []) :=
  ⟨rfl, claim_C4_first_404_immediate c4oracle "https://e.com/a" 5 32 rfl⟩

/-- When every attempt up to the budget fails retryably, the attempt loop
runs the full budget and reports the last attempt's result with
permanent = false and retriesUsed equal to the last attempt index. -/
theorem attemptLoop_all_retryable (oracle : ℕ → BackendResponse) (url : String)
    (cap : ℚ) :
    ∀ remaining attempt,
      (∀ a, a ≤ attempt + remaining →
        (scrape_url url (oracle a)).success = false ∧
        is_permanent_error (scrape_url url (oracle a)).status_code = false) →
      (attemptLoop oracle url cap remaining attempt).1 =
        (scrape_url url (oracle (attempt + remaining)), false, attempt + remaining) := by
  intro remaining
  induction remaining with
  | zero =>
      intro attempt h
      obtain ⟨hs, hp⟩ := h attempt (by omega)
      rw [attemptLoop]
      simp [hs, hp]
  | succ r ih =>
      intro attempt h
      obtain ⟨hs, hp⟩ := h attempt (by omega)
      rw [attemptLoop]
      simp only [hs, hp, Bool.false_eq_true, if_false]
      have := ih (attempt + 1) (fun a ha => h a (by omega))
      rw [show attempt + 1 + r = attempt + (r + 1) by omega] at this
      exact this

/-- C5: a URL for which every attempt up to maxRetries returns HTTP 429 (never
a success, since 429 is not 2xx) is emitted with isPermanent = false and
retriesUsed = maxRetries. -/
theorem claim_C5_429_exhausts_budget (oracle : ℕ → BackendResponse) (url : String)
    (max_retries : ℕ) (max_backoff : ℚ)
    (h : ∀ a, a ≤ max_retries → (scrape_url url (oracle a)).status_code = some 429) :
    (runOne oracle url max_retries max_backoff).1 =
      (scrape_url url (oracle max_retries), false, max_retries) := by
  have key := attemptLoop_all_retryable oracle url max_backoff max_retries 0
    (fun a ha => by
      constructor
      · exact success_false_of_status _ (by rw [h a (by omega)]; rfl)
      · rw [h a (by omega)]; rfl)
  rw [runOne]
  rw [key]
  simp

/-- Backend oracle for the C5 witness: every fetch is rate-limited (the API
envelope reports statusCode 429 with an empty body). -/
def c5oracle : ℕ → BackendResponse := fun _ =>
  .ok { success_field := true, data_markdown := some ""
        data_metadata := { statusCode := some 429 } }

/-- Witness for C5 at a concrete oracle with maxRetries = 2. -/
theorem claim_C5_witness :
    (∀ a, a ≤ 2 → (scrape_url "https://e.com/b" (c5oracle a)).status_code = some 429) ∧
    (runOne c5oracle "https://e.com/b" 2 32).1 =
      (scrape_url "https://e.com/b" (c5oracle 2), false, 2) :=
  ⟨fun _ _ => rfl, claim_C5_429_exhausts_budget c5oracle "https://e.com/b" 2 32
    (fun _ _ => rfl)⟩

/-- The retry count reported by the attempt loop is at least the starting
attempt index, and the backoff sleeps recorded in its trace are exactly
`backoff_delay 1 a cap` for the consecutive attempt indices `a` preceding each
retry. -/
theorem attemptLoop_sleep_trace (oracle : ℕ → BackendResponse) (url : String) (cap : ℚ) :
    ∀ remaining attempt,
      attempt ≤ (attemptLoop oracle url cap remaining attempt).1.2.2 ∧
      (attemptLoop oracle url cap remaining attempt).2.filterMap Event.sleepDur =
        (List.range ((attemptLoop oracle url cap remaining attempt).1.2.2 - attempt)).map
          (fun j => backoff_delay 1 (attempt + j) cap) := by
  intro remaining
  induction remaining with
  | zero =>
      intro attempt
      rw [attemptLoop]
      split
      · simp
      · split
        · simp
        · simp
  | succ r ih =>
      intro attempt
      rw [attemptLoop]
      split
      · simp
      · split
        · simp
        · obtain ⟨ih1, ih2⟩ := ih (attempt + 1)
          dsimp only
          refine ⟨by omega, ?_⟩
          simp only [List.filterMap_cons, Event.sleepDur]
          rw [ih2]
          have hk : (attemptLoop oracle url cap r (attempt + 1)).1.2.2 - attempt =
              ((attemptLoop oracle url cap r (attempt + 1)).1.2.2 - (attempt + 1)) + 1 := by
            omega
          rw [hk, List.range_succ_eq_map, List.map_cons, List.map_map]
          refine congrArg₂ _ (by simp) ?_
          apply List.map_congr_left
          intro j _
          simp only [Function.comp]
          congr 1
          omega

/-- C7: the backoff delay is `min(base * 2^attempt, cap)`, with base 1 second
`min(2^attempt, cap)`, deterministically; and during a URL's retry loop the
executor sleeps exactly once per retry, the sleep before the (j+1)-th retry
lasting `min(2^j, cap)` seconds, starting from attempt index 0. -/
theorem claim_C7_backoff (base cap : ℚ) (attempt : ℕ) :
    backoff_delay base attempt cap = min (base * 2 ^ attempt) cap ∧
    backoff_delay 1 attempt cap = min (2 ^ attempt) cap ∧
    ∀ (oracle : ℕ → BackendResponse) (url : String) (max_retries : ℕ),
      (runOne oracle url max_retries cap).2.filterMap Event.sleepDur =
        (List.range (runOne oracle url max_retries cap).1.2.2).map
          (fun j => min ((2 : ℚ) ^ j) cap) := by
  refine ⟨rfl, by rw [backoff_delay, one_mul], ?_⟩
  intro oracle url max_retries
  obtain ⟨-, h2⟩ := attemptLoop_sleep_trace oracle url cap max_retries 0
  rw [runOne]
  rw [h2]
  simp [backoff_delay]

/-- Manifest entry for the C6 scenario: URL X recorded ok with httpStatus 200. -/
def c6okEntry : ManifestEntry :=
  { url := "https://e.com/x", file := "x.md", status := "ok", ts := "t1"
    http_status := some 200 }

/-- Manifest entry for the C6 scenario: the same URL X later recorded as an
error. -/
def c6errEntry : ManifestEntry :=
  { url := "https://e.com/x", file := "", status := "error", ts := "t2"
    error := some "HTTP 500" }

/-- An input URL is dropped by the resume filter (without overwrite) exactly
when its manifest entry exists with status ok and a 2xx http status; with
overwrite set nothing is dropped. -/
theorem resume_skip_iff (manifest : String → Option ManifestEntry) (urls : List String)
    (u : String) (hu : u ∈ urls) :
    u ∉ resume_filter false manifest urls ↔
      ∃ e, manifest u = some e ∧ e.status = "ok" ∧ is_success e.http_status = true := by
  rw [resume_filter, if_neg (by simp)]
  rw [List.mem_filter]
  simp only [hu, true_and]
  cases h : manifest u with
  | none => simp
  | some e =>
      simp only [h, Option.some.injEq]
      constructor
      · intro hn
        have hb := eq_false_of_ne_true hn
        rw [Bool.or_eq_false_iff] at hb
        obtain ⟨h1, h2⟩ := hb
        rw [Bool.not_eq_false'] at h1 h2
        exact ⟨e, rfl, beq_iff_eq.mp h1, h2⟩
      · rintro ⟨e', he', h1, h2⟩
        subst he'
        simp [h1, h2]

/-- C6: loading a manifest maps each URL to the last entry written for it
(appending a parseable line for a URL makes it that URL's loaded entry,
whatever came before); in the ok-then-error scenario for URL X the loaded
status is error and the resume filter without overwrite re-processes X; and in
general a URL is skipped iff its loaded entry has status ok, a 2xx httpStatus
and overwrite is unset. -/
theorem claim_C6_last_write_wins :
    (∀ (lines : List (Option EntryDict)) (d : EntryDict) (e : ManifestEntry),
      ManifestEntry.from_dict d = some e →
      load_manifest (lines ++ [some d]) e.url = some e) ∧
    (load_manifest [some c6okEntry.to_dict, some c6errEntry.to_dict]
        "https://e.com/x").map ManifestEntry.status = some "error" ∧
    resume_filter false (load_manifest [some c6okEntry.to_dict, some c6errEntry.to_dict])
      ["https://e.com/x"] = ["https://e.com/x"] ∧
    (∀ (manifest : String → Option ManifestEntry) (urls : List String) (u : String),
      u ∈ urls →
        (u ∉ resume_filter false manifest urls ↔
          ∃ e, manifest u = some e ∧ e.status = "ok" ∧ is_success e.http_status = true)) ∧
    (∀ (manifest : String → Option ManifestEntry) (urls : List String),
      resume_filter true manifest urls = urls) := by
  refine ⟨?_, by decide, by decide, resume_skip_iff, fun _ _ => rfl⟩
  intro lines d e h
  rw [load_manifest, List.foldl_append]
  simp [List.foldl, h]

/-- Witness for C6's universally quantified conjunct at a concrete manifest
line, its hypothesis discharged by evaluation. -/
theorem claim_C6_witness :
    load_manifest ([] ++ [some c6errEntry.to_dict]) c6errEntry.url = some c6errEntry :=
  claim_C6_last_write_wins.1 [] c6errEntry.to_dict c6errEntry rfl

/-- C8: writing an entry as one manifest line and loading it back reproduces
url, file and status exactly, and each optional field that was absent at write
time is absent after loading. -/
theorem claim_C8_roundtrip (e : ManifestEntry) :
    ∃ e' : ManifestEntry,
      load_manifest (save_manifest_entry [] e) e.url = some e' ∧
      e'.url = e.url ∧ e'.file = e.file ∧ e'.status = e.status ∧
      (e.title = none → e'.title = none) ∧
      (e.http_status = none → e'.http_status = none) ∧
      (e.error = none → e'.error = none) := by
  refine ⟨{ url := e.url, file := e.file, status := e.status, ts := e.ts
            title := if truthyStr e.title then e.title else none
            http_status := if truthyInt e.http_status then e.http_status else none
            error := if truthyStr e.error then e.error else none },
    ?_, rfl, rfl, rfl, ?_, ?_, ?_⟩
  · simp [load_manifest, save_manifest_entry, ManifestEntry.to_dict,
      ManifestEntry.from_dict, List.foldl]
  · intro h; rw [h]; rfl
  · intro h; rw [h]; rfl
  · intro h; rw [h]; rfl

/-- Concrete entry for the C8 witness: all optional fields absent. -/
def c8entry : ManifestEntry :=
  { url := "https://e.com/r", file := "r.md", status := "ok", ts := "t0" }

/-- Witness for C8 at a concrete entry. -/
theorem claim_C8_witness :
    ∃ e' : ManifestEntry,
      load_manifest (save_manifest_entry [] c8entry) c8entry.url = some e' ∧
      e'.url = c8entry.url ∧ e'.file = c8entry.file ∧ e'.status = c8entry.status ∧
      (c8entry.title = none → e'.title = none) ∧
      (c8entry.http_status = none → e'.http_status = none) ∧
      (c8entry.error = none → e'.error = none) :=
  claim_C8_roundtrip c8entry

/-- C10: `save_error_entry` appends the entry iff its status is `"error"`;
for every other status it leaves the errors file unchanged, so every line it
ever appends carries status error. -/
theorem claim_C10_errors_only (lines : List (Option EntryDict)) (e : ManifestEntry) :
    (e.status ≠ "error" → save_error_entry lines e = lines) ∧
    (e.status = "error" → save_error_entry lines e = lines ++ [some e.to_dict]) ∧
    (∀ d ∈ save_error_entry lines e,
      d ∈ lines ∨ (d = some e.to_dict ∧ e.to_dict.status = some "error")) := by
  refine ⟨?_, ?_, ?_⟩
  · intro hne
    simp [save_error_entry, hne]
  · intro heq
    simp [save_error_entry, heq]
  · intro d hd
    by_cases h : e.status = "error"
    · simp only [save_error_entry, h, ne_eq, not_true_eq_false, if_false] at hd
      rcases List.mem_append.mp hd with h1 | h2
      · exact Or.inl h1
      · refine Or.inr ⟨List.mem_singleton.mp h2, ?_⟩
        show some e.status = some "error"
        rw [h]
    · simp only [save_error_entry, ne_eq, h, not_false_eq_true, if_true] at hd
      exact Or.inl hd

/-- Entry with a non-error status for the C10 witness. -/
def c10ok : ManifestEntry := { url := "https://e.com/p", file := "p.md", status := "ok" }

/-- Error entry for the C10 witness. -/
def c10err : ManifestEntry :=
  { url := "https://e.com/q", file := "", status := "error", error := some "boom" }

/-- Witness for C10: a non-error entry writes nothing, an error entry appends
one line. -/
theorem claim_C10_witness :
    save_error_entry [] c10ok = [] ∧
    save_error_entry [] c10err = [] ++ [some c10err.to_dict] :=
  ⟨(claim_C10_errors_only [] c10ok).1 (by decide),
   (claim_C10_errors_only [] c10err).2.1 rfl⟩

/-- Crawl page used in the C1 counterexample run. -/
def c1doc : DocItem :=
  { markdown := some "# A", sourceURL := some "https://e.com/a", statusCode := some 200 }

/-- WebSocket session of the C1 counterexample: one `document` message, then
the connection drops (no `done`/`error` reached). -/
def c1msgs : List WsMsg := [.document c1doc]

/-- Fallback polling session of the C1 counterexample: one terminal poll whose
data contains the page already delivered over the WebSocket. -/
def c1cycles : List PollCycle :=
  [{ status := some "completed", total := some 1, completed := some 1, data := [c1doc] }]

/-- C1 fails on the code: in a run where the push transport yields the page
for URL `https://e.com/a` and then drops, the fallback polling phase starts
with an empty dedup set and yields the same URL again — the run emits it
twice, not at most once. -/
theorem claim_C1_counterexample :
    (emittedUrls (stream_crawl "job-1" c1msgs c1cycles)).count "https://e.com/a" = 2 := by
  decide

/-- Emitting nothing emits no URLs. -/
theorem emittedUrls_nil : emittedUrls [] = [] := rfl

/-- URLs emitted by a run decompose snapshot by snapshot. -/
theorem emittedUrls_cons (p : CrawlJob × List ScrapeResult)
    (L : List (CrawlJob × List ScrapeResult)) :
    emittedUrls (p :: L) = p.2.map ScrapeResult.url ++ emittedUrls L := by
  simp [emittedUrls]

/-- The dedup scan over one poll cycle's items emits pairwise distinct URLs,
none already seen, and its output `seen_urls` contains both the old set and
every URL it emitted. -/
theorem dedupScan_spec :
    ∀ (items : List DocItem) (seen : List String),
      ((dedupScan seen items).1.map ScrapeResult.url).Nodup ∧
      (∀ u ∈ (dedupScan seen items).1.map ScrapeResult.url, u ∉ seen) ∧
      (∀ u ∈ seen, u ∈ (dedupScan seen items).2) ∧
      (∀ u ∈ (dedupScan seen items).1.map ScrapeResult.url, u ∈ (dedupScan seen items).2) := by
  intro items
  induction items with
  | nil => intro seen; simp [dedupScan]
  | cons item rest ih =>
      intro seen
      rw [dedupScan]
      split
      · rename_i hcond
        obtain ⟨ih1, ih2, ih3, ih4⟩ := ih (docUrl item :: seen)
        have hurl : (parse_doc item).url = docUrl item := rfl
        refine ⟨?_, ?_, ?_, ?_⟩
        · dsimp only [List.map_cons]
          rw [hurl]
          refine List.Nodup.cons ?_ ih1
          intro hmem
          exact (ih2 _ hmem) (List.mem_cons_self _ _)
        · intro u hu
          rcases List.mem_cons.mp hu with h1 | h2
          · rw [hurl] at h1
            subst h1
            exact hcond.2
          · intro hseen
            exact (ih2 u h2) (List.mem_cons_of_mem _ hseen)
        · intro u hu
          exact ih3 u (List.mem_cons_of_mem _ hu)
        · intro u hu
          rcases List.mem_cons.mp hu with h1 | h2
          · rw [hurl] at h1
            subst h1
            exact ih3 _ (List.mem_cons_self _ _)
          · exact ih4 u h2
      · exact ih seen

/-- Across the polling loop's cycles the dedup set is threaded, so the whole
polling phase emits pairwise distinct URLs, none in the starting set. -/
theorem pollGo_spec :
    ∀ (cycles : List PollCycle) (job_id : String) (seen : List String),
      (emittedUrls (pollGo job_id seen cycles)).Nodup ∧
      ∀ u ∈ emittedUrls (pollGo job_id seen cycles), u ∉ seen := by
  intro cycles
  induction cycles with
  | nil => intro job_id seen; simp [pollGo, emittedUrls]
  | cons c rest ih =>
      intro job_id seen
      obtain ⟨ds1, ds2, ds3, ds4⟩ := dedupScan_spec c.items seen
      rw [pollGo]
      split
      · rw [emittedUrls_cons, emittedUrls_nil, List.append_nil]
        exact ⟨ds1, ds2⟩
      · obtain ⟨ihr1, ihr2⟩ := ih job_id (dedupScan seen c.items).2
        rw [emittedUrls_cons]
        constructor
        · rw [List.nodup_append]
          refine ⟨ds1, ihr1, ?_⟩
          intro a ha hb
          exact (ihr2 a hb) (ds4 a ha)
        · intro u hu
          rcases List.mem_append.mp hu with h1 | h2
          · exact ds2 u h1
          · intro hseen
            exact (ihr2 u h2) (ds3 u hseen)

/-- C1 amended: deduplication holds within the polling phase only — the
polling phase of a run emits each URL at most once; a crawl whose push
transport fails before delivering anything is exactly the deduplicated
polling run; and in general a run is the WebSocket-phase output followed (on
push-transport failure) by a polling run whose dedup set starts empty, so the
dedup state does not carry over the transport switch. -/
theorem claim_C1_amended (job_id : String) (cycles : List PollCycle) :
    (emittedUrls (poll_crawl job_id cycles)).Nodup ∧
    stream_crawl job_id [] cycles = poll_crawl job_id cycles ∧
    ∀ msgs : List WsMsg,
      stream_crawl job_id msgs cycles =
          (stream_crawl_ws job_id msgs).1 ++ poll_crawl job_id cycles ∨
      stream_crawl job_id msgs cycles = (stream_crawl_ws job_id msgs).1 := by
  refine ⟨(pollGo_spec cycles job_id []).1, rfl, ?_⟩
  intro msgs
  rw [stream_crawl]
  by_cases h : (stream_crawl_ws job_id msgs).2
  · rw [if_pos h]
    exact Or.inr rfl
  · rw [if_neg h]
    exact Or.inl rfl

end Firemd
